import Mathlib

/-!
Verification development for the medical RAG/agent question-answering system.

The Python sources are embedded shallowly:

* `src/src/agent_tools.py` — the `ToolRegistry` (registration, lookup,
  `execute_tool`) and the six reference tools, embedded as pure Lean
  functions over explicit registry values.  Python keyword-argument
  dictionaries are modelled as association lists of `PyVal`s; a tool
  handler that would raise is modelled as returning `Except.error` with
  the exception's message, which `execute_tool` catches exactly where the
  Python `try`/`except` does.
* `src/src/medical_agent.py` — `MedicalAgent.process_query`, the ReAct
  loop, embedded as a fuel-indexed recursion over an oracle
  `Nat → LMResult` standing for the external chat-completion backend (the
  `j`-th model invocation of an episode returns `oracle j`).  A backend
  call that raises is `LMResult.failure`; the result of `json.loads` on a
  tool call's argument payload is carried inside `ToolCallReq.args`
  (`Except.error` when the payload does not parse as a keyword mapping,
  which makes the Python `json.loads(...)` call raise inside the loop's
  `try`).
* `src/medical_qa_system.py` — `retrieve_context`, `generate_answer`,
  `_answer_with_agent`, `answer_question` and
  `_calculate_coverage_score`.  The vector store behind
  `MedicalRAGRetriever.similarity_search` is modelled by the list of
  `(document, score)` pairs the backing index returns for the query;
  similarity scores are embedded as rationals, and Python's `f"{x:.3f}"`
  as `fmt3` (identical up to the rounding mode of the last digit, which
  no claim depends on).

String lengths in Lean count characters, as Python `len` does.
-/

namespace RagAgent

/-- A Python runtime value, as far as the embedded code inspects one:
strings, integers, lists, string-keyed dictionaries and `None`. -/
inductive PyVal where
  | vstr (s : String)
  | vint (n : Int)
  | vlist (xs : List PyVal)
  | vdict (kvs : List (String × PyVal))
  | vnone

/-- Python `__getitem__` with a string key: subscripting a `str` raises
`TypeError` ("string indices must be integers"), subscripting a `dict`
returns the value or raises `KeyError`.  The `Except.error` payload is the
exception's message (`str(e)`). -/
def pySubscript : PyVal → String → Except String PyVal
  | .vstr _, _ => .error "string indices must be integers"
  | .vdict kvs, key =>
      match kvs.find? (fun kv => kv.fst == key) with
      | some kv => .ok kv.snd
      | none => .error key
  | _, _ => .error "object is not subscriptable"

/-- Python `sep.join(parts)`. -/
def joinSep (sep : String) : List String → String
  | [] => ""
  | [x] => x
  | x :: y :: rest => x ++ sep ++ joinSep sep (y :: rest)

/-- Does the first character list start with the second? -/
def charsStartWith : List Char → List Char → Bool
  | _, [] => true
  | [], _ :: _ => false
  | a :: as, b :: bs => a == b && charsStartWith as bs

/-- Does some suffix of the second list start with `sub`? -/
def charsContain (sub : List Char) : List Char → Bool
  | [] => List.isEmpty sub
  | a :: as => charsStartWith (a :: as) sub || charsContain sub as

/-- Python `sub in hay` on strings (substring containment). -/
def strContains (hay sub : String) : Bool :=
  charsContain sub.data hay.data

/-- Python `s[:n]` (first `n` characters). -/
def pyTake (s : String) (n : Nat) : String :=
  ⟨s.data.take n⟩

/-- Python `s.lower()`, character by character. -/
def pyLower (s : String) : String :=
  ⟨s.data.map Char.toLower⟩

/-- Python `s.split()`: split on whitespace runs, dropping empty pieces. -/
def pySplit (s : String) : List String :=
  (s.split (fun c => c.isWhitespace)).filter (fun t => t != "")

/-- Python `s.strip()`: drop leading and trailing whitespace. -/
def pyStrip (s : String) : String :=
  ⟨((s.data.dropWhile Char.isWhitespace).reverse.dropWhile Char.isWhitespace).reverse⟩

/-! ## Tool registry (`src/src/agent_tools.py`, class `ToolRegistry`)

`ToolRegistry.tools` is a Python dict mapping a tool name to
`{"function": f, "description": d, "parameters": p}`; it is embedded as an
association list updated with Python-dict semantics (assignment replaces
the value of an existing key in place, otherwise appends). -/

/-- One entry of `ToolRegistry.tools`.  `func` is the handler over the
keyword arguments; `Except.error e` models the handler raising an
exception whose message is `e`. -/
structure ToolEntry where
  func : List (String × PyVal) → Except String String
  description : String
  parameters : PyVal

/-- The registry state: `ToolRegistry.tools`. -/
abbrev Registry : Type := List (String × ToolEntry)

/-- Python dict assignment `d[name] = entry`. -/
def dictSet (reg : Registry) (name : String) (entry : ToolEntry) : Registry :=
  if (List.any reg (fun kv => kv.fst == name)) then
    List.map (fun kv => if kv.fst == name then (name, entry) else kv) reg
  else
    List.append reg [(name, entry)]

/-- `ToolRegistry.register_tool` (agent_tools.py lines 20–26):
`self.tools[name] = {"function": func, "description": description,
"parameters": parameters}`. -/
def register_tool (reg : Registry) (name : String)
    (func : List (String × PyVal) → Except String String)
    (description : String) (parameters : PyVal) : Registry :=
  dictSet reg name ⟨func, description, parameters⟩

/-- `name in self.tools` / `self.tools[name]` as one lookup. -/
def lookupTool (reg : Registry) (name : String) : Option ToolEntry :=
  (List.find? (fun kv => kv.fst == name) reg).map (fun kv => kv.snd)

/-- `ToolRegistry.execute_tool` (agent_tools.py lines 177–186): an unknown
name yields a textual not-found observation; a handler exception is caught
and converted to a textual error observation carrying the original
message. -/
def execute_tool (reg : Registry) (tool_name : String)
    (kwargs : List (String × PyVal)) : String :=
  match lookupTool reg tool_name with
  | none => "工具 '" ++ tool_name ++ "' 不存在"
  | some t =>
      match t.func kwargs with
      | .ok result => result
      | .error e => "执行工具 '" ++ tool_name ++ "' 时发生错误: " ++ e

/-! ## The six reference tools (`src/src/agent_tools.py`)

Each tool builds exactly the string its Python counterpart builds.  Python
`set` iteration order is implementation-defined; where a tool joins the
elements of a set (`symptom_analysis`, `department_recommendation`) the
embedding uses first-encounter order, one of the admissible orders. -/

/-- `medical_knowledge_search` (agent_tools.py lines 189–205).  The
retriever behind it is the external index, passed as `search` (its result
for `(query, top_k)`); a retriever failure is out of scope for the claims
and not modelled. -/
def medical_knowledge_search (search : String → Nat → List String)
    (query : String) (top_k : Nat) : String :=
  let results := search query top_k
  if results.isEmpty then "未找到相关医疗信息"
  else
    joinSep "\n\n"
      (results.enum.map (fun p => "结果" ++ toString (p.fst + 1) ++ ": " ++ p.snd))

/-- The optional `patient_info` argument of `symptom_analysis`: the three
keys the code reads from the dict. -/
structure PatientInfo where
  age : Option Int
  gender : Option String
  medical_history : Option (List String)

/-- The `common_conditions` table of `symptom_analysis`. -/
def common_conditions : List (String × List String) :=
  [("发热", ["感冒", "流感", "感染"]),
   ("咳嗽", ["感冒", "支气管炎", "肺炎"]),
   ("头痛", ["偏头痛", "紧张性头痛", "高血压"]),
   ("胸痛", ["心绞痛", "肌肉拉伤", "焦虑"]),
   ("腹痛", ["胃炎", "肠胃炎", "阑尾炎"])]

/-- The `possible_conditions` set accumulated by `symptom_analysis`,
in first-encounter order. -/
def possible_conditions (symptoms : List String) : List String :=
  (List.flatten (symptoms.map (fun s =>
    List.flatten ((common_conditions.filter (fun kv => strContains s kv.fst)).map
      (fun kv => kv.snd))))).dedup

/-- `symptom_analysis` (agent_tools.py lines 207–246). -/
def symptom_analysis (symptoms : List String) (patient_info : Option PatientInfo) :
    String :=
  let symptom_text := joinSep "、" symptoms
  let analysis := "症状分析报告:\n" ++ "主要症状: " ++ symptom_text ++ "\n\n"
  let analysis :=
    match patient_info with
    | none => analysis
    | some info =>
        let a := analysis ++ "患者信息:\n"
        let a := match info.age with
          | some n => a ++ "- 年龄: " ++ toString n ++ "岁\n"
          | none => a
        let a := match info.gender with
          | some g => a ++ "- 性别: " ++ g ++ "\n"
          | none => a
        let a := match info.medical_history with
          | some h => a ++ "- 既往病史: " ++ joinSep "、" h ++ "\n"
          | none => a
        a ++ "\n"
  let conds := possible_conditions symptoms
  let analysis :=
    if conds.isEmpty then analysis
    else analysis ++ "可能的疾病: " ++ joinSep ", " conds ++ "\n\n"
  analysis ++ "注意: 此分析仅供参考，请及时就医获得专业诊断。"

/-- One row of the `drug_db` table of `drug_information`: the four fields
作用 / 用法用量 / 副作用 / 注意事项. -/
structure DrugEntry where
  effect : String
  dosage : String
  sideEffects : String
  precautions : String

/-- The static `drug_db` table (agent_tools.py lines 251–270). -/
def drug_db : List (String × DrugEntry) :=
  [("阿司匹林",
    ⟨"解热镇痛、抗血小板聚集", "口服，每次75-100mg，每日1次",
     "胃肠道不适、出血风险增加", "餐后服用，注意出血风险"⟩),
   ("布洛芬",
    ⟨"解热镇痛抗炎", "口服，每次200-400mg，每日2-3次",
     "胃肠道不适、头晕", "餐后服用，避免长期使用"⟩),
   ("对乙酰氨基酚",
    ⟨"解热镇痛", "口服，每次500mg，每4-6小时一次",
     "过量可导致肝损伤", "注意日用量不超过4g"⟩)]

/-- `drug_information` (agent_tools.py lines 248–283): exact-match lookup
in the static table after stripping whitespace; unknown drug yields a
not-found message. -/
def drug_information (drug_name : String) : String :=
  let name := pyStrip drug_name
  match (drug_db.find? (fun kv => kv.fst == name)).map (fun kv => kv.snd) with
  | some info =>
      "药物: " ++ name ++ "\n\n" ++
      "作用: " ++ info.effect ++ "\n" ++
      "用法用量: " ++ info.dosage ++ "\n" ++
      "副作用: " ++ info.sideEffects ++ "\n" ++
      "注意事项: " ++ info.precautions ++ "\n\n" ++
      "警告: 请在医生指导下使用药物，不要自行调整剂量。"
  | none =>
      "未找到药物 '" ++ name ++ "' 的信息。建议咨询医生或药师获取详细信息。"

/-- One row of the `advice_db` table of `health_advice`:
饮食 / 运动 / 生活. -/
structure AdviceEntry where
  diet : String
  exercise : String
  lifestyle : String

/-- The static `advice_db` table (agent_tools.py lines 287–303). -/
def advice_db : List (String × AdviceEntry) :=
  [("高血压", ⟨"低盐饮食，多吃蔬菜水果", "适量有氧运动，如散步、游泳",
               "规律作息，控制体重，戒烟限酒"⟩),
   ("糖尿病", ⟨"控制碳水化合物摄入，定时定量进餐", "餐后30分钟适量运动",
               "监测血糖，按时服药，足部护理"⟩),
   ("冠心病", ⟨"低脂低胆固醇饮食", "循序渐进的有氧运动",
               "控制情绪，避免过度劳累"⟩)]

/-- `health_advice` (agent_tools.py lines 285–325). -/
def health_advice (condition : String) (lifestyle_factors : Option (List String)) :
    String :=
  let result := "针对 '" ++ condition ++ "' 的健康建议:\n\n"
  let result :=
    match (advice_db.find? (fun kv => kv.fst == condition)).map (fun kv => kv.snd) with
    | some advice =>
        result ++ "饮食建议: " ++ advice.diet ++ "\n" ++
        "运动建议: " ++ advice.exercise ++ "\n" ++
        "生活建议: " ++ advice.lifestyle ++ "\n\n"
    | none =>
        result ++ "一般健康建议:\n" ++ "- 保持均衡饮食\n" ++ "- 适量运动\n" ++
        "- 规律作息\n" ++ "- 定期体检\n\n"
  let result :=
    match lifestyle_factors with
    | some factors =>
        result ++ "基于您的生活方式因素 (" ++ joinSep ", " factors ++ ")，" ++
        "建议进一步咨询医生制定个性化健康方案。\n\n"
    | none => result
  result ++ "重要提醒: 以上建议仅供参考，具体治疗方案请遵医嘱。"

/-- The `emergency_symptoms` keyword list of `emergency_assessment`
(agent_tools.py lines 329–332). -/
def emergency_symptoms : List String :=
  ["胸痛", "呼吸困难", "意识模糊", "剧烈头痛", "高热", "大出血", "严重腹痛", "中毒症状"]

/-- The `urgent_symptoms` keyword list (agent_tools.py lines 334–337). -/
def urgent_symptoms : List String :=
  ["持续发热", "剧烈咳嗽", "严重呕吐", "关节疼痛", "皮疹", "失眠"]

/-- `emergency_count`: `sum(1 for symptom in symptoms for emergency in
emergency_symptoms if emergency in symptom)`. -/
def emergency_count (symptoms : List String) : Nat :=
  (symptoms.map (fun s =>
    (emergency_symptoms.filter (fun e => strContains s e)).length)).sum

/-- `urgent_count`, same shape over `urgent_symptoms`. -/
def urgent_count (symptoms : List String) : Nat :=
  (symptoms.map (fun s =>
    (urgent_symptoms.filter (fun u => strContains s u)).length)).sum

/-- The three-tier classification of `emergency_assessment` (agent_tools.py
lines 351–362): `(level, recommendation, color)`. -/
def assessTriple (symptoms : List String) (severity : String) :
    String × String × String :=
  if 0 < emergency_count symptoms ∨ severity = "severe" then
    ("紧急", "建议立即就医或拨打急救电话120", "🔴")
  else if 0 < urgent_count symptoms ∨ severity = "moderate" then
    ("较急", "建议24小时内就医", "🟡")
  else
    ("一般", "可预约门诊就医，注意观察症状变化", "🟢")

/-- `emergency_assessment` (agent_tools.py lines 327–368), full report
text.  `severity` defaults to `"moderate"` at the Python call boundary. -/
def emergency_assessment (symptoms : List String) (severity : String) : String :=
  let t := assessTriple symptoms severity
  "紧急程度评估:\n\n" ++
  "症状: " ++ joinSep ", " symptoms ++ "\n" ++
  "严重程度: " ++ severity ++ "\n\n" ++
  "评估结果: " ++ t.snd.snd ++ " " ++ t.fst ++ "\n" ++
  "建议: " ++ t.snd.fst ++ "\n\n" ++
  "注意: 此评估仅供参考，如有疑虑请及时就医。"

/-- The `department_map` table of `department_recommendation`
(agent_tools.py lines 372–384). -/
def department_map : List (String × String) :=
  [("心", "心内科"), ("胸", "心内科"), ("呼吸", "呼吸科"), ("咳嗽", "呼吸科"),
   ("腹", "消化科"), ("胃", "消化科"), ("头", "神经内科"), ("关节", "骨科"),
   ("皮", "皮肤科"), ("眼", "眼科"), ("耳", "耳鼻喉科")]

/-- The `recommended_departments` set of `department_recommendation`, in
first-encounter order: matches from the symptom list, then from the
optional suspected condition. -/
def recommended_departments (symptoms : List String)
    (suspected_condition : Option String) : List String :=
  let fromSymptoms := List.flatten (symptoms.map (fun s =>
    (department_map.filter (fun kv => strContains s kv.fst)).map (fun kv => kv.snd)))
  let fromCondition :=
    match suspected_condition with
    | some c => (department_map.filter (fun kv => strContains c kv.fst)).map
        (fun kv => kv.snd)
    | none => []
  (fromSymptoms ++ fromCondition).dedup

/-- `department_recommendation` (agent_tools.py lines 370–414). -/
def department_recommendation (symptoms : List String)
    (suspected_condition : Option String) : String :=
  let result := "科室推荐:\n\n" ++ "症状: " ++ joinSep ", " symptoms ++ "\n"
  let result :=
    match suspected_condition with
    | some c => result ++ "疑似疾病: " ++ c ++ "\n"
    | none => result
  let result := result ++ "\n推荐科室:\n"
  let depts := recommended_departments symptoms suspected_condition
  let result :=
    if depts.isEmpty then result ++ "- 内科（建议先到内科初诊）\n"
    else result ++ String.join (depts.map (fun d => "- " ++ d ++ "\n"))
  result ++ "\n提醒: 如不确定，可先挂号内科，由医生进一步转诊。"

/-! ## Retrieval and context assembly (`src/src/rag_retriever.py`,
`src/medical_qa_system.py`)

The Chroma vector store is the external nearest-neighbour service: the
list it returns for `similarity_search_with_score(query, k)` is taken as
an input (`backend`), each element a document with its score.  By the
service's contract that list has at most `k` elements. -/

/-- One document as the backing index returns it: `page_content` and the
`source` entry of its metadata (`None` when the metadata lacks one). -/
structure RawDoc where
  page_content : String
  source : Option String

/-- One formatted retrieval result (rag_retriever.py lines 122–131). -/
structure SearchResult where
  rank : Nat
  content : String
  similarity_score : ℚ
  source : String

/-- Three-place zero padding for `fmt3`. -/
def pad3 (n : Nat) : String :=
  if n < 10 then "00" ++ toString n
  else if n < 100 then "0" ++ toString n
  else toString n

/-- Python `f"{x:.3f}"` for the similarity scores, embedded over ℚ.  For
`q ≥ 0` the displayed value is `⌊1000·q⌋ = (q.num * 1000) / q.den`, written
without rational normalisation; it agrees with CPython up to the rounding
mode of the last digit (floor here, round-half-even there); no claim
depends on that digit. -/
def fmt3 (q : ℚ) : String :=
  if q < 0 then
    let m := (-(q.num * 1000 / (q.den : Int))).toNat
    "-" ++ toString (m / 1000) ++ "." ++ pad3 (m % 1000)
  else
    let m := (q.num * 1000 / (q.den : Int)).toNat
    toString (m / 1000) ++ "." ++ pad3 (m % 1000)

/-- The result-formatting loop of `similarity_search` (rag_retriever.py
lines 121–131): `for i, (doc, score) in enumerate(results)`, keeping the
results with `score >= score_threshold`. -/
def formatResults (score_threshold : ℚ) :
    Nat → List (RawDoc × ℚ) → List SearchResult
  | _, [] => []
  | i, (doc, score) :: rest =>
      if score_threshold ≤ score then
        { rank := i + 1
          content := doc.page_content
          similarity_score := score
          source := doc.source.getD "Unknown" } ::
          formatResults score_threshold (i + 1) rest
      else formatResults score_threshold (i + 1) rest

/-- `MedicalRAGRetriever.similarity_search` (rag_retriever.py lines
90–138) on the list the vector store returned.  The uninitialised-store
and exception branches both return `[]`, i.e. an empty `backend`. -/
def similarity_search (backend : List (RawDoc × ℚ)) (score_threshold : ℚ) :
    List SearchResult :=
  formatResults score_threshold 0 backend

/-- The characters after the last occurrence of `c` (the whole list when
`c` does not occur): `s.split(c)[-1]` on character lists. -/
def lastSegAux (c : Char) (cur : List Char) : List Char → List Char
  | [] => cur.reverse
  | x :: xs => if x == c then lastSegAux c [] xs else lastSegAux c (x :: cur) xs

/-- `result['source'].split('/')[-1] if '/' in result['source'] else
result['source']` (medical_qa_system.py line 137). -/
def lastSlashSegment (s : String) : String :=
  if strContains s "/" then ⟨lastSegAux '/' [] s.data⟩ else s

/-- The per-passage truncation of `retrieve_context` (medical_qa_system.py
lines 141–143): content longer than `max_context_length // k` characters
is cut there and given a trailing `"..."` marker. -/
def truncateContent (max_context_length k : Nat) (content : String) : String :=
  if max_context_length / k < content.length then
    pyTake content (max_context_length / k) ++ "..."
  else content

/-- The source/score header of one rendered passage
(medical_qa_system.py line 145, up to and including the newline). -/
def passageHeader (r : SearchResult) : String :=
  "【来源: " ++ lastSlashSegment r.source ++ " | 相似度: " ++
    fmt3 r.similarity_score ++ "】\n"

/-- One element of `context_parts` (medical_qa_system.py line 145). -/
def renderPassage (max_context_length k : Nat) (r : SearchResult) : String :=
  passageHeader r ++ truncateContent max_context_length k r.content

/-- The `context_parts` list of `retrieve_context`. -/
def context_parts (max_context_length k : Nat) (rs : List SearchResult) :
    List String :=
  rs.map (renderPassage max_context_length k)

/-- The banner prefix `"\n\n" + "=" * 50` (medical_qa_system.py line 147). -/
def contextBanner : String :=
  "\n\n" ++ String.mk (List.replicate 50 '=')

/-- `MedicalQASystem.retrieve_context` (medical_qa_system.py lines
113–148): `(context text, search results)`. -/
def retrieve_context (enable_rag : Bool) (max_context_length k : Nat)
    (backend : List (RawDoc × ℚ)) : String × List SearchResult :=
  if !enable_rag then ("", [])
  else
    let search_results := similarity_search backend 0
    if search_results.isEmpty then ("未找到相关医疗知识。", [])
    else
      (contextBanner ++ joinSep "\n\n" (context_parts max_context_length k search_results),
       search_results)

/-- `MedicalQASystem.generate_answer` (medical_qa_system.py lines
150–194): one backend chat completion, degraded on failure to an apology
plus the raw retrieved context.  `llm` is the backend call's outcome. -/
def generate_answer (llm : Except String String) (context : String) : String :=
  match llm with
  | .ok answer => answer
  | .error _ =>
      "抱歉，生成答案时出现了错误。请稍后再试。\n\n基于检索到的信息，相关内容如下：\n" ++
        context

/-- `MedicalQASystem._calculate_coverage_score` (medical_qa_system.py
lines 500–512): keyword coverage of the question's lowercased whitespace
tokens by the answer's, clamped at 1; `0` without retrieval results or
question tokens. -/
def _calculate_coverage_score (question answer : String)
    (search_results : List SearchResult) : ℚ :=
  if search_results.isEmpty then 0
  else
    let question_keywords := (pySplit (pyLower question)).dedup
    let answer_keywords := (pySplit (pyLower answer)).dedup
    let coverage : ℚ :=
      if question_keywords.isEmpty then 0
      else ((question_keywords.filter (fun w => answer_keywords.contains w)).length : ℚ) /
             (question_keywords.length : ℚ)
    min coverage 1

/-! ## Keyword-argument decoding for the registered tools

`execute_tool` calls each handler as `f(**kwargs)`.  The wrappers below
decode the keyword mapping into the handler's Python signature; a mapping
that does not fit the declared schema is the case in which the Python call
raises (`TypeError` on a missing or ill-typed argument,
`AttributeError`/`TypeError` inside the handler body), and is modelled as
`Except.error` — caught by `execute_tool` like any other handler fault. -/

/-- `kwargs.get(key)`. -/
def getArg (kwargs : List (String × PyVal)) (key : String) : Option PyVal :=
  (kwargs.find? (fun kv => kv.fst == key)).map (fun kv => kv.snd)

/-- Decode a Python list of strings. -/
def asStrList : List PyVal → Option (List String)
  | [] => some []
  | .vstr s :: rest => (asStrList rest).map (fun t => s :: t)
  | _ => none

/-- Decode the `patient_info` dict of `symptom_analysis`. -/
def toPatientInfo (kvs : List (String × PyVal)) : Option PatientInfo :=
  let age := match getArg kvs "age" with
    | some (.vint n) => some (some n)
    | none => some none
    | some _ => none
  let gender := match getArg kvs "gender" with
    | some (.vstr g) => some (some g)
    | none => some none
    | some _ => none
  let history := match getArg kvs "medical_history" with
    | some (.vlist xs) => (asStrList xs).map some
    | none => some none
    | some _ => none
  match age, gender, history with
  | some a, some g, some h => some ⟨a, g, h⟩
  | _, _, _ => none

/-- Handler wrapper for `medical_knowledge_search`. -/
def medical_knowledge_search_handler (search : String → Nat → List String)
    (kwargs : List (String × PyVal)) : Except String String :=
  match getArg kwargs "query" with
  | some (.vstr q) =>
      let top_k := match getArg kwargs "top_k" with
        | some (.vint n) => n.toNat
        | _ => 3
      .ok (medical_knowledge_search search q top_k)
  | _ => .error "medical_knowledge_search() missing required argument: query"

/-- Handler wrapper for `symptom_analysis`. -/
def symptom_analysis_handler (kwargs : List (String × PyVal)) :
    Except String String :=
  match getArg kwargs "symptoms" with
  | some (.vlist xs) =>
      match asStrList xs with
      | some symptoms =>
          match getArg kwargs "patient_info" with
          | some (.vdict kvs) =>
              match toPatientInfo kvs with
              | some info => .ok (symptom_analysis symptoms (some info))
              | none => .error "symptom_analysis() got an ill-typed patient_info"
          | none => .ok (symptom_analysis symptoms none)
          | some _ => .error "symptom_analysis() got an ill-typed patient_info"
      | none => .error "symptom_analysis() got an ill-typed symptoms list"
  | _ => .error "symptom_analysis() missing required argument: symptoms"

/-- Handler wrapper for `drug_information`. -/
def drug_information_handler (kwargs : List (String × PyVal)) :
    Except String String :=
  match getArg kwargs "drug_name" with
  | some (.vstr name) => .ok (drug_information name)
  | _ => .error "drug_information() missing required argument: drug_name"

/-- Handler wrapper for `health_advice`. -/
def health_advice_handler (kwargs : List (String × PyVal)) :
    Except String String :=
  match getArg kwargs "condition" with
  | some (.vstr condition) =>
      match getArg kwargs "lifestyle_factors" with
      | some (.vlist xs) =>
          match asStrList xs with
          | some factors => .ok (health_advice condition (some factors))
          | none => .error "health_advice() got an ill-typed lifestyle_factors"
      | none => .ok (health_advice condition none)
      | some _ => .error "health_advice() got an ill-typed lifestyle_factors"
  | _ => .error "health_advice() missing required argument: condition"

/-- Handler wrapper for `emergency_assessment` (severity defaults to
`"moderate"`). -/
def emergency_assessment_handler (kwargs : List (String × PyVal)) :
    Except String String :=
  match getArg kwargs "symptoms" with
  | some (.vlist xs) =>
      match asStrList xs with
      | some symptoms =>
          match getArg kwargs "severity" with
          | some (.vstr sev) => .ok (emergency_assessment symptoms sev)
          | none => .ok (emergency_assessment symptoms "moderate")
          | some _ => .error "emergency_assessment() got an ill-typed severity"
      | none => .error "emergency_assessment() got an ill-typed symptoms list"
  | _ => .error "emergency_assessment() missing required argument: symptoms"

/-- Handler wrapper for `department_recommendation`. -/
def department_recommendation_handler (kwargs : List (String × PyVal)) :
    Except String String :=
  match getArg kwargs "symptoms" with
  | some (.vlist xs) =>
      match asStrList xs with
      | some symptoms =>
          match getArg kwargs "suspected_condition" with
          | some (.vstr c) => .ok (department_recommendation symptoms (some c))
          | none => .ok (department_recommendation symptoms none)
          | some _ => .error "department_recommendation() got an ill-typed suspected_condition"
      | none => .error "department_recommendation() got an ill-typed symptoms list"
  | _ => .error "department_recommendation() missing required argument: symptoms"

/-- A JSON-schema `{"type": "string", "description": d}` property. -/
def strProp (d : String) : PyVal :=
  .vdict [("type", .vstr "string"), ("description", .vstr d)]

/-- A JSON-schema array-of-strings property. -/
def strListProp (d : String) : PyVal :=
  .vdict [("type", .vstr "array"), ("items", .vdict [("type", .vstr "string")]),
          ("description", .vstr d)]

/-- An object schema with its properties and required names. -/
def objSchema (props : List (String × PyVal)) (required : List String) : PyVal :=
  .vdict [("type", .vstr "object"), ("properties", .vdict props),
          ("required", .vlist (required.map PyVal.vstr))]

/-- `ToolRegistry.register_default_tools` (agent_tools.py lines 28–161):
the registry holding the six reference tools, in registration order. -/
def register_default_tools (search : String → Nat → List String) : Registry :=
  let r := register_tool [] "medical_knowledge_search"
    (medical_knowledge_search_handler search)
    "搜索医疗知识库，获取相关医疗信息"
    (objSchema
      [("query", strProp "搜索查询词"),
       ("top_k", .vdict [("type", .vstr "integer"), ("description", .vstr "返回结果数量"),
                         ("default", .vint 3)])]
      ["query"])
  let r := register_tool r "symptom_analysis" symptom_analysis_handler
    "分析症状，提供初步诊断建议"
    (objSchema
      [("symptoms", strListProp "症状列表"),
       ("patient_info", .vdict [("type", .vstr "object"),
                                ("description", .vstr "患者基本信息（可选）")])]
      ["symptoms"])
  let r := register_tool r "drug_information" drug_information_handler
    "查询药物信息，包括用法用量、副作用等"
    (objSchema [("drug_name", strProp "药物名称")] ["drug_name"])
  let r := register_tool r "health_advice" health_advice_handler
    "根据病症提供健康生活建议"
    (objSchema
      [("condition", strProp "疾病或健康状况"),
       ("lifestyle_factors", strListProp "生活方式因素（可选）")]
      ["condition"])
  let r := register_tool r "emergency_assessment" emergency_assessment_handler
    "评估症状的紧急程度，判断是否需要立即就医"
    (objSchema
      [("symptoms", strListProp "当前症状"),
       ("severity", strProp "症状严重程度")]
      ["symptoms"])
  register_tool r "department_recommendation" department_recommendation_handler
    "根据症状推荐合适的医院科室"
    (objSchema
      [("symptoms", strListProp "症状描述"),
       ("suspected_condition", strProp "疑似疾病（可选）")]
      ["symptoms"])

/-! ## The ReAct loop (`src/src/medical_agent.py`, `MedicalAgent`) -/

/-- One tool call requested by the model: its call id, function name, and
the outcome of `json.loads` on the argument payload the model supplied
(`Except.error e` when that payload is not a valid keyword mapping, in
which case the Python `json.loads` call raises with message `e`). -/
structure ToolCallReq where
  id : String
  fname : String
  args : Except String (List (String × PyVal))

/-- One chat-completion outcome of the language-model backend:
`failure e` when the API call raises, otherwise the assistant's reply
(content, possibly with requested tool calls). -/
inductive LMResult where
  | failure (e : String)
  | reply (content : String) (tool_calls : List ToolCallReq)

/-- One message of the conversation state. -/
inductive Msg where
  | system (content : String)
  | user (content : String)
  | assistant (content : String) (tool_calls : List ToolCallReq)
  | tool (content : String) (tool_call_id : String)

/-- `MedicalAgent._build_system_prompt` (medical_agent.py lines 73–108). -/
def agent_system_prompt : String :=
  "你是一个专业的医疗智能助手，具备以下能力：\n\n1. **知识检索**: 可以搜索医疗知识库获取准确信息\n2. **症状分析**: 能够分析症状并提供初步诊断建议  \n3. **药物咨询**: 提供药物信息和用药指导\n4. **健康建议**: 给出针对性的健康生活建议\n5. **紧急评估**: 评估症状紧急程度，指导就医时机\n6. **科室推荐**: 根据症状推荐合适的医院科室\n\n**工作模式 - ReAct (Reasoning + Acting):**\n当用户提出问题时，你需要：\n1. **思考(Think)**: 分析问题，确定需要什么信息\n2. **行动(Act)**: 使用合适的工具获取信息\n3. **观察(Observe)**: 分析工具返回的结果\n4. **重复**: 如果需要更多信息，重复上述过程\n5. **回答**: 基于收集的信息给出综合回答\n\n**重要原则:**\n- 始终强调医疗建议仅供参考，不能替代专业医疗诊断\n- 遇到紧急情况，优先建议立即就医\n- 提供信息时要准确、客观、易懂\n- 保护患者隐私，避免询问过于敏感的个人信息\n- 不提供具体的诊断结论，只提供参考信息\n\n**回答格式:**\n使用清晰的结构化回答，包含：\n- 问题理解\n- 相关信息（通过工具获取）\n- 分析和建议\n- 注意事项和就医建议\n\n现在开始为用户提供专业的医疗咨询服务。"

/-- The terminal message of an episode whose iteration budget ran out
(medical_agent.py line 213). -/
def budget_exhausted_message : String :=
  "抱歉，问题比较复杂，我需要更多时间来分析。请您简化问题或分步骤询问。"

/-- The degraded answer returned when the final allotted iteration fails
(medical_agent.py line 209). -/
def backend_error_message (e : String) : String :=
  "抱歉，处理您的问题时遇到了错误: " ++ e ++ "。请重新描述您的问题。"

/-- The tool-execution inner loop of `process_query` (medical_agent.py
lines 169–186): execute the requested calls in request order, appending
one tool-result message per call; stop with `some e` at the first call
whose argument payload fails to parse (the `json.loads` exception),
keeping the results appended so far. -/
def runToolCalls (reg : Registry) :
    List ToolCallReq → List Msg → List Msg × Option String
  | [], msgs => (msgs, none)
  | tc :: rest, msgs =>
      match tc.args with
      | .error e => (msgs, some e)
      | .ok kwargs =>
          runToolCalls reg rest
            (msgs ++ [Msg.tool (execute_tool reg tc.fname kwargs) tc.id])

/-- The ReAct loop of `MedicalAgent.process_query` (medical_agent.py lines
146–213), by remaining iterations: `fuel` iterations of the `for` loop
remain, so `fuel = 0` is the loop's fall-through (budget exhausted) and a
failure with `fuel = 1` is a failure in the final allotted iteration.
The `j`-th remaining model invocation returns `oracle j`; recursion
shifts the oracle.  Returns the final conversation state with the
returned answer text. -/
def reactLoop (reg : Registry) (oracle : Nat → LMResult) :
    Nat → List Msg → List Msg × String
  | 0, msgs => (msgs, budget_exhausted_message)
  | fuel + 1, msgs =>
      match oracle 0 with
      | .failure e =>
          if fuel = 0 then (msgs, backend_error_message e)
          else reactLoop reg (fun n => oracle (n + 1)) fuel msgs
      | .reply content tool_calls =>
          let msgs1 := msgs ++ [Msg.assistant content tool_calls]
          if tool_calls.isEmpty then (msgs1, content)
          else
            match runToolCalls reg tool_calls msgs1 with
            | (msgs2, none) => reactLoop reg (fun n => oracle (n + 1)) fuel msgs2
            | (msgs2, some e) =>
                if fuel = 0 then (msgs2, backend_error_message e)
                else reactLoop reg (fun n => oracle (n + 1)) fuel msgs2

/-- `MedicalAgent.process_query` (medical_agent.py lines 135–213): seed
the conversation with the system and user messages and run the ReAct loop
for at most `max_iterations` iterations (the constructor default is 5). -/
def process_query (reg : Registry) (oracle : Nat → LMResult)
    (max_iterations : Nat) (user_query : String) : List Msg × String :=
  reactLoop reg oracle max_iterations
    [Msg.system agent_system_prompt, Msg.user user_query]

/-- `MedicalAgent.chat` (medical_agent.py lines 229–231): returns
`process_query`'s answer text — a plain string. -/
def chat (reg : Registry) (oracle : Nat → LMResult) (max_iterations : Nat)
    (user_input : String) : String :=
  (process_query reg oracle max_iterations user_input).snd

/-! ## Answer envelopes (`src/medical_qa_system.py`) -/

/-- The dictionary `MedicalQASystem` returns to its callers. -/
structure AnswerEnvelope where
  question : String
  answer : String
  search_results : List SearchResult
  retrieval_success : Bool
  sources : List String
  context : Option String
  mode : String
  rag_enabled : Bool
  agent_info : Option PyVal
  error : Option String

/-- `MedicalQASystem._answer_with_agent` (medical_qa_system.py lines
219–250).  `agent.chat` returns a plain string; the success branch
subscripts it with `'response'`, so `pySubscript` on a `PyVal.vstr`
models `agent_result['response']`.  The `.ok` branch is the success
envelope the code would build from a dict-shaped result; the `.error`
branch is the `except` clause. -/
def _answer_with_agent (enable_rag : Bool) (reg : Registry)
    (oracle : Nat → LMResult) (max_iterations : Nat) (question : String) :
    AnswerEnvelope :=
  let agent_result : PyVal := .vstr (chat reg oracle max_iterations question)
  match pySubscript agent_result "response" with
  | .ok v =>
      { question := question
        answer := match v with | .vstr s => s | _ => ""
        search_results := []
        retrieval_success := false
        sources := []
        context := none
        mode := "Agent模式" ++ (if enable_rag then "(RAG增强)" else "")
        rag_enabled := enable_rag
        agent_info := some (.vdict [("tool_calls", .vlist []), ("iterations", .vint 0),
                                    ("tools_used", .vlist [])])
        error := none }
  | .error e =>
      { question := question
        answer := "智能体处理过程中出现错误: " ++ e
        search_results := []
        retrieval_success := false
        sources := []
        context := none
        mode := "Agent模式" ++ (if enable_rag then "(RAG增强)" else "")
        rag_enabled := enable_rag
        agent_info := none
        error := some e }

/-- `MedicalQASystem._answer_with_rag_or_llm` (medical_qa_system.py lines
252–273). -/
def _answer_with_rag_or_llm (enable_rag : Bool) (max_context_length k : Nat)
    (backend : List (RawDoc × ℚ)) (llm : Except String String)
    (question : String) (show_context : Bool) : AnswerEnvelope :=
  let c := retrieve_context enable_rag max_context_length k backend
  let answer := generate_answer llm c.fst
  { question := question
    answer := answer
    search_results := c.snd
    retrieval_success := 0 < c.snd.length
    sources := c.snd.map (fun r => r.source)
    context := if show_context then some c.fst else none
    mode := if enable_rag then "RAG模式" else "LLM模式"
    rag_enabled := enable_rag
    agent_info := none
    error := none }

/-- `MedicalQASystem.answer_question` (medical_qa_system.py lines
196–217): dispatch on the configured mode. -/
def answer_question (mode : String) (enable_rag : Bool) (reg : Registry)
    (oracle : Nat → LMResult) (max_iterations : Nat)
    (max_context_length k : Nat) (backend : List (RawDoc × ℚ))
    (llm : Except String String) (show_context : Bool) (question : String) :
    AnswerEnvelope :=
  if mode == "agent" then
    _answer_with_agent enable_rag reg oracle max_iterations question
  else
    _answer_with_rag_or_llm enable_rag max_context_length k backend llm
      question show_context

/-! ## Conversation-state well-formedness

`wfAux pending msgs` walks a message sequence: after an assistant message
requesting tool calls, the immediately following messages must be exactly
one tool-result message per requested call, keyed by the call ids in
request order, before anything else (in particular before the assistant
message of the next model invocation); a tool-result message may appear
nowhere else.  `wellFormed msgs` is the walk started with nothing
pending.  This is the transcript shape claim C1 demands. -/

/-- Did `json.loads` succeed on this tool call's argument payload? -/
def argsOk (tc : ToolCallReq) : Bool :=
  match tc.args with
  | .ok _ => true
  | .error _ => false

/-- Every tool call the backend requests in this outcome has a parsing
argument payload. -/
def respArgsOk : LMResult → Bool
  | .failure _ => true
  | .reply _ calls => calls.all argsOk

/-- The tool-result message `runToolCalls` appends for one call whose
arguments parse. -/
def execMsg (reg : Registry) (tc : ToolCallReq) : Msg :=
  Msg.tool
    (match tc.args with
     | .ok kwargs => execute_tool reg tc.fname kwargs
     | .error _ => "")
    tc.id

/-- Walk the transcript with the list of still-unanswered tool calls. -/
def wfAux : List ToolCallReq → List Msg → Bool
  | [], [] => true
  | [], Msg.assistant _ calls :: rest => wfAux calls rest
  | [], Msg.tool _ _ :: _ => false
  | [], Msg.system _ :: rest => wfAux [] rest
  | [], Msg.user _ :: rest => wfAux [] rest
  | _ :: _, [] => false
  | tc :: tcs, Msg.tool _ cid :: rest => tc.id == cid && wfAux tcs rest
  | _ :: _, Msg.assistant _ _ :: _ => false
  | _ :: _, Msg.system _ :: _ => false
  | _ :: _, Msg.user _ :: _ => false

/-- Every requested tool call is answered by exactly its own tool-result
message, immediately, before any later message. -/
def wellFormed (msgs : List Msg) : Bool :=
  wfAux [] msgs

/-- How many tool-result messages of the transcript carry this call id. -/
def tool_result_count (msgs : List Msg) (cid : String) : Nat :=
  (msgs.filter (fun m =>
    match m with
    | Msg.tool _ id => id == cid
    | _ => false)).length

/-! ## Concrete probe inputs for witnesses and counterexamples -/

/-- An index oracle returning nothing (an empty vector store). -/
def emptySearch : String → Nat → List String := fun _ _ => []

/-- The default registry over the empty index. -/
def probe_registry : Registry := register_default_tools emptySearch

/-- A backend behaviour whose first reply requests one tool call with an
argument payload that is not valid JSON (so `json.loads` raises), and
which then answers plainly. -/
def probe_oracle_badjson : Nat → LMResult
  | 0 => .reply ""
      [⟨"call_1", "drug_information", .error "Expecting value: line 1 column 1 (char 0)"⟩]
  | _ => .reply "阿司匹林请在医生指导下使用。" []

/-- A backend behaviour that answers plainly at once. -/
def probe_oracle_plain : Nat → LMResult := fun _ =>
  .reply "高血压患者应低盐饮食，具体请咨询医生。" []

/-- A backend behaviour that requests one well-formed tool call on every
invocation (it never produces a final answer). -/
def probe_oracle_looping : Nat → LMResult := fun _ =>
  .reply "" [⟨"call_loop", "drug_information", .ok [("drug_name", .vstr "布洛芬")]⟩]

/-- A backend behaviour that fails on every invocation. -/
def probe_oracle_failing : Nat → LMResult := fun _ => .failure "Connection error."

/-- A backend behaviour that requests one well-formed tool call and then
answers plainly. -/
def probe_oracle_toolthen : Nat → LMResult
  | 0 => .reply ""
      [⟨"call_a", "drug_information", .ok [("drug_name", .vstr "阿司匹林")]⟩]
  | _ => .reply "以上为药物信息，请遵医嘱。" []

/-- A one-document store answer whose content (20 characters) exceeds the
per-passage cap used in the claim C3 counterexample. -/
def probe_backend_long : List (RawDoc × ℚ) :=
  [(⟨String.mk (List.replicate 20 'a'), some "kb/doc.txt"⟩, 1)]

/-- A small store answer for the claim C2 witness. -/
def probe_backend_small : List (RawDoc × ℚ) :=
  [(⟨"高血压的诊断标准是140/90mmHg。", some "kb/hypertension.txt"⟩, (1 : ℚ))]

/-- A first handler for the duplicate-registration probe. -/
def probe_handler_first : List (String × PyVal) → Except String String :=
  fun _ => .ok "first result"

/-- A second, observably different handler for the same name. -/
def probe_handler_second : List (String × PyVal) → Except String String :=
  fun _ => .ok "second result"

/-- A registry in which `"echo"` is registered once. -/
def probe_registry_once : Registry :=
  register_tool [] "echo" probe_handler_first "first registration" .vnone

/-- The same registry after `register_tool` is called again with the name
`"echo"`. -/
def probe_registry_twice : Registry :=
  register_tool probe_registry_once "echo" probe_handler_second
    "second registration" .vnone

/-! ## Shared helper lemmas -/

/-- Looking a name up right after `dictSet` stored it yields the stored
entry, whether the name was present before (in-place replacement) or not
(append). -/
theorem lookupTool_dictSet_self (reg : Registry) (name : String)
    (entry : ToolEntry) : lookupTool (dictSet reg name entry) name = some entry := by
  unfold dictSet
  by_cases h : List.any reg (fun kv => kv.fst == name)
  · simp only [h, if_true]
    induction reg with
    | nil => simp at h
    | cons kv rest ih =>
      by_cases hk : kv.fst == name
      · simp [lookupTool, List.find?, hk]
      · have hrest : List.any rest (fun kv => kv.fst == name) := by
          simp only [List.any_cons, hk, Bool.false_or] at h
          exact h
        simpa [lookupTool, List.find?, hk] using ih hrest
  · simp only [h, if_false]
    induction reg with
    | nil => simp [lookupTool, List.find?]
    | cons kv rest ih =>
      have hk : (kv.fst == name) = false := by
        by_contra hne
        simp only [List.any_cons, Bool.or_eq_true] at h
        exact h (Or.inl (by simpa using hne))
      have hrest : ¬ List.any rest (fun kv => kv.fst == name) := by
        intro hr
        exact h (by simp [List.any_cons, hr])
      simpa [lookupTool, List.find?, hk] using ih hrest

/-! ## Claim C4 — `execute_tool` is a total textual boundary -/

/-- C4: `ToolRegistry.execute_tool` returns a string in every case and
never raises (it is a total function into `String`): an unregistered name
yields the textual not-found observation, a handler that raises has its
exception caught at this boundary and converted to a textual error
observation carrying the original message, and a succeeding handler's
text is passed through. -/
theorem execute_tool_total_boundary :
    (∀ (reg : Registry) (tool_name : String) (kwargs : List (String × PyVal)),
       lookupTool reg tool_name = none →
       execute_tool reg tool_name kwargs = "工具 '" ++ tool_name ++ "' 不存在")
    ∧ (∀ (reg : Registry) (tool_name : String) (kwargs : List (String × PyVal))
         (t : ToolEntry) (e : String),
       lookupTool reg tool_name = some t → t.func kwargs = .error e →
       execute_tool reg tool_name kwargs =
         "执行工具 '" ++ tool_name ++ "' 时发生错误: " ++ e)
    ∧ (∀ (reg : Registry) (tool_name : String) (kwargs : List (String × PyVal))
         (t : ToolEntry) (r : String),
       lookupTool reg tool_name = some t → t.func kwargs = .ok r →
       execute_tool reg tool_name kwargs = r) := by
  refine ⟨?_, ?_, ?_⟩
  · intro reg tool_name kwargs h
    simp [execute_tool, h]
  · intro reg tool_name kwargs t e h hf
    simp [execute_tool, h, hf]
  · intro reg tool_name kwargs t r h hf
    simp [execute_tool, h, hf]

/-! ## Claim C5 — duplicate registration

`register_tool` (agent_tools.py lines 20–26) is a bare dict assignment:
there is no duplicate check and no `DuplicateToolError` anywhere in the
repository, so registering an already-present name silently replaces the
existing registration. -/

/-- C5 counterexample: registering `"echo"` twice does not fail — the
second registration silently replaces the first (the registry still has
exactly one entry, and both its description and its handler are the
second ones). -/
theorem register_tool_duplicate_cex :
    (lookupTool probe_registry_twice "echo").map ToolEntry.description
        = some "second registration"
    ∧ probe_registry_twice.length = 1
    ∧ execute_tool probe_registry_twice "echo" [] = "second result" := by
  refine ⟨rfl, rfl, rfl⟩

/-- C5 amended: calling `register_tool` with a name that is already
present does not fail with a `DuplicateToolError` (no such error exists);
it silently replaces the existing registration — afterwards the name maps
to exactly the newly supplied handler, description and parameter spec
(last write wins). -/
theorem register_tool_overwrites (reg : Registry) (name : String)
    (func : List (String × PyVal) → Except String String)
    (description : String) (parameters : PyVal) :
    lookupTool (register_tool reg name func description parameters) name
      = some ⟨func, description, parameters⟩ :=
  lookupTool_dictSet_self reg name ⟨func, description, parameters⟩

/-! ## Claim C9 — `drug_information` is deterministic and total -/

/-- C9: `drug_information` is a pure function of its argument (the drug
table is a static literal), so two calls with the same argument return
identical text; `drug_information("阿司匹林")` returns the fixed text of
the table entry on every call; and a drug name missing from the table
yields the textual not-found / consult-a-professional message rather than
raising. -/
theorem drug_information_deterministic :
    (∀ drug_name : String, drug_information drug_name = drug_information drug_name)
    ∧ drug_information "阿司匹林" =
        "药物: 阿司匹林\n\n作用: 解热镇痛、抗血小板聚集\n用法用量: 口服，每次75-100mg，每日1次\n副作用: 胃肠道不适、出血风险增加\n注意事项: 餐后服用，注意出血风险\n\n警告: 请在医生指导下使用药物，不要自行调整剂量。"
    ∧ (∀ drug_name : String,
       drug_db.find? (fun kv => kv.fst == pyStrip drug_name) = none →
       drug_information drug_name =
         "未找到药物 '" ++ pyStrip drug_name ++ "' 的信息。建议咨询医生或药师获取详细信息。") := by
  refine ⟨fun _ => rfl, by decide, ?_⟩
  intro drug_name h
  simp [drug_information, h]

/-! ## Claim C6 — `emergency_assessment` three-tier classification -/

/-- A keyword count of the shape used by `emergency_assessment` is
positive exactly when some symptom contains some keyword. -/
theorem keyword_count_pos (kws symptoms : List String) :
    0 < (symptoms.map (fun s => (kws.filter (fun e => strContains s e)).length)).sum
      ↔ ∃ s ∈ symptoms, ∃ kw ∈ kws, strContains s kw = true := by
  induction symptoms with
  | nil => simp
  | cons s rest ih =>
    simp only [List.map_cons, List.sum_cons, List.mem_cons]
    rw [Nat.add_pos_iff_pos_or_pos, ih, List.length_pos_iff_exists_mem]
    constructor
    · rintro (⟨kw, hkw⟩ | ⟨t, ht, hkw⟩)
      · rw [List.mem_filter] at hkw
        exact ⟨s, Or.inl rfl, kw, hkw.1, hkw.2⟩
      · exact ⟨t, Or.inr ht, hkw⟩
    · rintro ⟨t, (rfl | ht), kw, hkw, hc⟩
      · exact Or.inl ⟨kw, List.mem_filter.mpr ⟨hkw, hc⟩⟩
      · exact Or.inr ⟨t, ht, kw, hkw, hc⟩

/-- C6: the three-tier classification of `emergency_assessment`.  For
every symptom list and every severity in {mild, moderate, severe}: the
highest tier (紧急, immediate care / call 120) is reached exactly when
some symptom contains an emergency keyword or severity is severe;
otherwise the middle tier (较急, see a doctor within 24h) exactly when
some symptom contains an urgent keyword or severity is moderate; otherwise
the lowest tier (一般).  In particular
`emergency_assessment(["剧烈头痛"], "mild")` classifies as 紧急 with the
immediate-care recommendation: the keyword match overrides the mild
severity. -/
theorem emergency_assessment_three_tiers :
    (∀ (symptoms : List String) (severity : String),
       severity = "mild" ∨ severity = "moderate" ∨ severity = "severe" →
       (((assessTriple symptoms severity).fst = "紧急") ↔
          ((∃ s ∈ symptoms, ∃ kw ∈ emergency_symptoms, strContains s kw = true) ∨
            severity = "severe"))
       ∧ (((assessTriple symptoms severity).fst = "较急") ↔
          (¬((∃ s ∈ symptoms, ∃ kw ∈ emergency_symptoms, strContains s kw = true) ∨
              severity = "severe")
            ∧ ((∃ s ∈ symptoms, ∃ kw ∈ urgent_symptoms, strContains s kw = true) ∨
                severity = "moderate")))
       ∧ (((assessTriple symptoms severity).fst = "一般") ↔
          (¬((∃ s ∈ symptoms, ∃ kw ∈ emergency_symptoms, strContains s kw = true) ∨
              severity = "severe")
            ∧ ¬((∃ s ∈ symptoms, ∃ kw ∈ urgent_symptoms, strContains s kw = true) ∨
                severity = "moderate"))))
    ∧ assessTriple ["剧烈头痛"] "mild" =
        ("紧急", "建议立即就医或拨打急救电话120", "🔴") := by
  constructor
  · intro symptoms severity _
    have hem : 0 < emergency_count symptoms ↔
        ∃ s ∈ symptoms, ∃ kw ∈ emergency_symptoms, strContains s kw = true :=
      keyword_count_pos emergency_symptoms symptoms
    have hur : 0 < urgent_count symptoms ↔
        ∃ s ∈ symptoms, ∃ kw ∈ urgent_symptoms, strContains s kw = true :=
      keyword_count_pos urgent_symptoms symptoms
    unfold assessTriple
    split_ifs with h1 h2
    · rw [hem] at h1
      refine ⟨⟨fun _ => h1, fun _ => rfl⟩, ?_, ?_⟩
      · simp only [show ("紧急" = "较急") = False from by simp, false_iff]
        rintro ⟨hn, _⟩; exact hn h1
      · simp only [show ("紧急" = "一般") = False from by simp, false_iff]
        rintro ⟨hn, _⟩; exact hn h1
    · rw [hem] at h1
      rw [hur] at h2
      refine ⟨?_, ⟨fun _ => ⟨h1, h2⟩, fun _ => rfl⟩, ?_⟩
      · simp only [show ("较急" = "紧急") = False from by simp, false_iff]
        exact h1
      · simp only [show ("较急" = "一般") = False from by simp, false_iff]
        rintro ⟨_, hn⟩; exact hn h2
    · rw [hem] at h1
      rw [hur] at h2
      refine ⟨?_, ?_, ⟨fun _ => ⟨h1, h2⟩, fun _ => rfl⟩⟩
      · simp only [show ("一般" = "紧急") = False from by simp, false_iff]
        exact h1
      · simp only [show ("一般" = "较急") = False from by simp, false_iff]
        rintro ⟨_, hn⟩; exact h2 hn
  · decide

/-! ## Claim C8 — coverage score bounds -/

/-- C8: `_calculate_coverage_score` always lies in `[0, 1]`, and it is `0`
whenever the retrieval-result list is empty or the lowercased question
splits into no whitespace tokens. -/
theorem coverage_score_bounds :
    ∀ (question answer : String) (search_results : List SearchResult),
      (0 ≤ _calculate_coverage_score question answer search_results
        ∧ _calculate_coverage_score question answer search_results ≤ 1)
      ∧ (search_results = [] →
          _calculate_coverage_score question answer search_results = 0)
      ∧ (pySplit (pyLower question) = [] →
          _calculate_coverage_score question answer search_results = 0) := by
  intro question answer search_results
  refine ⟨⟨?_, ?_⟩, ?_, ?_⟩
  · unfold _calculate_coverage_score
    by_cases h1 : search_results.isEmpty
    · simp [h1]
    · simp only [if_neg h1]
      refine le_min ?_ zero_le_one
      by_cases h2 : (pySplit (pyLower question)).dedup.isEmpty
      · simp [h2]
      · simp only [if_neg h2]
        positivity
  · unfold _calculate_coverage_score
    by_cases h1 : search_results.isEmpty
    · simp [h1]
    · simp only [if_neg h1]
      exact min_le_right _ _
  · intro h
    simp [_calculate_coverage_score, h]
  · intro h
    unfold _calculate_coverage_score
    by_cases h1 : search_results.isEmpty
    · simp [h1]
    · simp [if_neg h1, h]

/-! ## Claim C10 — agent mode always returns the error envelope -/

/-- C10: in agent mode, `answer_question` returns the error-shaped
envelope for every question and every backend behaviour.
`MedicalAgent.chat` returns a plain string, `_answer_with_agent`
subscripts it with `'response'`, and subscripting a `str` with a string
key always raises `TypeError`, which the `except` branch converts into
the envelope with an `error` field and an error-message answer — the
success-shaped envelope is unreachable. -/
theorem answer_question_agent_error_envelope :
    ∀ (enable_rag : Bool) (reg : Registry) (oracle : Nat → LMResult)
      (max_iterations max_context_length k : Nat)
      (backend : List (RawDoc × ℚ)) (llm : Except String String)
      (show_context : Bool) (question : String),
      answer_question "agent" enable_rag reg oracle max_iterations
          max_context_length k backend llm show_context question =
        { question := question
          answer := "智能体处理过程中出现错误: string indices must be integers"
          search_results := []
          retrieval_success := false
          sources := []
          context := none
          mode := "Agent模式" ++ (if enable_rag then "(RAG增强)" else "")
          rag_enabled := enable_rag
          agent_info := none
          error := some "string indices must be integers" } := by
  intro enable_rag reg oracle max_iterations max_context_length k backend llm
    show_context question
  rfl

/-! ## Claims C2 and C3 — context assembly -/

/-- When every score clears the threshold, the formatting loop keeps every
backend result. -/
theorem formatResults_length (score_threshold : ℚ) :
    ∀ (i : Nat) (backend : List (RawDoc × ℚ)),
      (∀ p ∈ backend, score_threshold ≤ p.snd) →
      (formatResults score_threshold i backend).length = backend.length := by
  intro i backend
  induction backend generalizing i with
  | nil => intro _; rfl
  | cons p rest ih =>
    intro h
    obtain ⟨doc, score⟩ := p
    have hp : score_threshold ≤ score := h (doc, score) (List.mem_cons_self _ _)
    simp only [formatResults, if_pos hp, List.length_cons]
    rw [ih (i + 1) (fun q hq => h q (List.mem_cons_of_mem _ hq))]

/-- The per-passage content cap: after `truncateContent` the content is at
most `max_context_length // k` characters plus the 3-character `"..."`
marker. -/
theorem truncateContent_length (max_context_length k : Nat) (content : String) :
    (truncateContent max_context_length k content).length
      ≤ max_context_length / k + 3 := by
  unfold truncateContent
  by_cases h : max_context_length / k < content.length
  · rw [if_pos h, String.length_append]
    have h1 : (pyTake content (max_context_length / k)).length
        = (content.data.take (max_context_length / k)).length := rfl
    have h2 := List.length_take_le (max_context_length / k) content.data
    have h3 : ("..." : String).length = 3 := rfl
    omega
  · rw [if_neg h]
    omega

/-- Character count of a `joinSep` join. -/
theorem joinSep_length (sep : String) :
    ∀ l : List String,
      (joinSep sep l).length
        = (l.map String.length).sum + sep.length * (l.length - 1)
  | [] => by simp [joinSep]
  | [x] => by simp [joinSep]
  | x :: y :: rest => by
      rw [joinSep, String.length_append, String.length_append,
        joinSep_length sep (y :: rest)]
      simp only [List.map_cons, List.sum_cons, List.length_cons]
      have h1 : rest.length + 1 + 1 - 1 = rest.length + 1 := by omega
      have h2 : rest.length + 1 - 1 = rest.length := by omega
      rw [h1, h2]
      ring

/-- Splitting a sum of a constant-shifted map. -/
theorem sum_map_add_const {α : Type} (l : List α) (f : α → Nat) (c : Nat) :
    (l.map (fun x => f x + c)).sum = (l.map f).sum + l.length * c := by
  induction l with
  | nil => simp
  | cons x rest ih =>
    simp only [List.map_cons, List.sum_cons, List.length_cons, ih]
    ring

/-- C2: for `k ≥ 1` and a retrieved passage list of length `n` (the
backing index returns at most `k` results for a `k`-passage query, and
each retrieved passage's score clears the default threshold 0),
`retrieve_context` renders exactly `min(k, n)` passage segments, and no
segment's passage content exceeds `max_context_length // k` characters
plus the trailing `"..."` truncation marker. -/
theorem retrieve_context_segments :
    ∀ (max_context_length k : Nat) (backend : List (RawDoc × ℚ)),
      1 ≤ k → backend.length ≤ k → (∀ p ∈ backend, (0 : ℚ) ≤ p.snd) →
      (context_parts max_context_length k (similarity_search backend 0)).length
          = min k backend.length
      ∧ ∀ r ∈ similarity_search backend 0,
          (truncateContent max_context_length k r.content).length
            ≤ max_context_length / k + 3 := by
  intro max_context_length k backend _ hn hs
  have hlen : (similarity_search backend 0).length = backend.length :=
    formatResults_length 0 0 backend hs
  refine ⟨?_, fun r _ => truncateContent_length max_context_length k r.content⟩
  rw [context_parts, List.length_map, hlen, min_eq_right hn]

/-- C2 witness: the cap and segment count at a concrete one-passage
retrieval with the constructor defaults `max_context_length = 4000`,
`k = 3`. -/
theorem retrieve_context_segments_witness :
    (context_parts 4000 3 (similarity_search probe_backend_small 0)).length
        = min 3 probe_backend_small.length
    ∧ ∀ r ∈ similarity_search probe_backend_small 0,
        (truncateContent 4000 3 r.content).length ≤ 4000 / 3 + 3 :=
  retrieve_context_segments 4000 3 probe_backend_small (by decide) (by decide)
    (by decide)

/-- C3 counterexample: with `max_context_length = 10` and `k = 1`, a
single retrieved passage satisfying every hypothesis of the claim (k ≥ 1,
at most k passages, score above threshold) yields a full context text of
92 characters — the banner, header and truncation marker push the total
past `max_context_length`, so the invariant "context length never exceeds
`max_context_length`" is false. -/
theorem retrieve_context_exceeds_budget_cex :
    1 ≤ 1 ∧ probe_backend_long.length ≤ 1
    ∧ (∀ p ∈ probe_backend_long, (0 : ℚ) ≤ p.snd)
    ∧ (retrieve_context true 10 1 probe_backend_long).fst.length = 92
    ∧ 10 < (retrieve_context true 10 1 probe_backend_long).fst.length := by
  refine ⟨le_rfl, by decide, by decide, by decide, by decide⟩

/-- C3 amended: what `retrieve_context` guarantees is the per-passage
content cap of `max_context_length // k` (plus the 3-character marker);
the full context text may exceed `max_context_length` by the rendering
overhead, and is bounded by `max_context_length` plus that overhead: the
52-character banner, each passage's source/score header (with its
newline), 3 marker characters per passage and the 2-character separators
between passages. -/
theorem retrieve_context_length_overhead_bound :
    ∀ (max_context_length k : Nat) (backend : List (RawDoc × ℚ)),
      1 ≤ k → backend.length ≤ k → (∀ p ∈ backend, (0 : ℚ) ≤ p.snd) →
      (retrieve_context true max_context_length k backend).fst.length ≤
        52 + 2 * ((similarity_search backend 0).length - 1)
          + 3 * (similarity_search backend 0).length
          + ((similarity_search backend 0).map
              (fun r => (passageHeader r).length)).sum
          + max_context_length := by
  intro max_context_length k backend _ hn hs
  have hlen : (similarity_search backend 0).length = backend.length :=
    formatResults_length 0 0 backend hs
  by_cases hempty : (similarity_search backend 0).isEmpty
  · have : (retrieve_context true max_context_length k backend).fst
        = "未找到相关医疗知识。" := by
      simp [retrieve_context, hempty]
    rw [this]
    have h10 : ("未找到相关医疗知识。" : String).length = 10 := by decide
    omega
  · have hfst : (retrieve_context true max_context_length k backend).fst
        = contextBanner ++
            joinSep "\n\n" (context_parts max_context_length k
              (similarity_search backend 0)) := by
      simp [retrieve_context, hempty]
    rw [hfst, String.length_append]
    have hbanner : contextBanner.length = 52 := by decide
    have hjoin := joinSep_length "\n\n"
      (context_parts max_context_length k (similarity_search backend 0))
    have hsep : ("\n\n" : String).length = 2 := by decide
    rw [hjoin, hsep] at *
    have hparts_len : (context_parts max_context_length k
        (similarity_search backend 0)).length
          = (similarity_search backend 0).length := by
      rw [context_parts, List.length_map]
    have hsum : ((context_parts max_context_length k
          (similarity_search backend 0)).map String.length).sum
        ≤ ((similarity_search backend 0).map
            (fun r => (passageHeader r).length)).sum
          + (similarity_search backend 0).length
              * (max_context_length / k + 3) := by
      rw [context_parts, List.map_map]
      calc ((similarity_search backend 0).map
              (String.length ∘ renderPassage max_context_length k)).sum
          ≤ ((similarity_search backend 0).map
              (fun r => (passageHeader r).length
                + (max_context_length / k + 3))).sum := by
            refine List.sum_le_sum ?_
            intro r _
            show (renderPassage max_context_length k r).length ≤ _
            rw [renderPassage, String.length_append]
            have := truncateContent_length max_context_length k r.content
            omega
        _ = ((similarity_search backend 0).map
              (fun r => (passageHeader r).length)).sum
            + (similarity_search backend 0).length
                * (max_context_length / k + 3) :=
            sum_map_add_const _ _ _
    have hmul : (similarity_search backend 0).length * (max_context_length / k)
        ≤ max_context_length := by
      calc (similarity_search backend 0).length * (max_context_length / k)
          ≤ k * (max_context_length / k) := by
            exact Nat.mul_le_mul_right _ (by omega)
        _ ≤ max_context_length := Nat.mul_div_le max_context_length k
    have hdistrib : (similarity_search backend 0).length
        * (max_context_length / k + 3)
          = (similarity_search backend 0).length * (max_context_length / k)
            + 3 * (similarity_search backend 0).length := by ring
    omega

/-- C3 amended witness: the overhead bound at the concrete
counterexample's input. -/
theorem retrieve_context_length_overhead_bound_witness :
    (retrieve_context true 10 1 probe_backend_long).fst.length ≤
      52 + 2 * ((similarity_search probe_backend_long 0).length - 1)
        + 3 * (similarity_search probe_backend_long 0).length
        + ((similarity_search probe_backend_long 0).map
            (fun r => (passageHeader r).length)).sum
        + 10 :=
  retrieve_context_length_overhead_bound 10 1 probe_backend_long (by decide)
    (by decide) (by decide)

/-! ## Claims C1 and C7 — the ReAct loop -/

/-- With every argument payload parsing, the tool loop appends exactly one
tool-result message per requested call, in request order, and reports no
exception. -/
theorem runToolCalls_ok (reg : Registry) :
    ∀ (calls : List ToolCallReq) (msgs : List Msg),
      calls.all argsOk = true →
      runToolCalls reg calls msgs = (msgs ++ calls.map (execMsg reg), none) := by
  intro calls
  induction calls with
  | nil => intro msgs _; simp [runToolCalls]
  | cons tc rest ih =>
    intro msgs h
    rw [List.all_cons, Bool.and_eq_true] at h
    obtain ⟨h1, h2⟩ := h
    cases harg : tc.args with
    | error e => simp [argsOk, harg] at h1
    | ok kwargs =>
      simp only [runToolCalls, harg, List.map_cons]
      rw [ih _ h2]
      simp [execMsg, harg]

/-- Walking past a well-formed prefix leaves a fresh walk of the suffix. -/
theorem wfAux_append :
    ∀ (xs : List Msg) (p : List ToolCallReq) (ys : List Msg),
      wfAux p xs = true → wfAux p (xs ++ ys) = wfAux [] ys := by
  intro xs
  induction xs with
  | nil =>
    intro p ys h
    cases p with
    | nil => simp
    | cons tc tcs => simp [wfAux] at h
  | cons m rest ih =>
    intro p ys h
    cases p with
    | nil =>
      cases m with
      | system c =>
        rw [List.cons_append]
        simp only [wfAux] at h ⊢
        exact ih [] ys h
      | user c =>
        rw [List.cons_append]
        simp only [wfAux] at h ⊢
        exact ih [] ys h
      | assistant c calls =>
        rw [List.cons_append]
        simp only [wfAux] at h ⊢
        exact ih calls ys h
      | tool c cid => simp [wfAux] at h
    | cons tc tcs =>
      cases m with
      | tool c cid =>
        rw [List.cons_append]
        simp only [wfAux, Bool.and_eq_true] at h ⊢
        rw [h.1]
        simpa using ih tcs ys h.2
      | system c => simp [wfAux] at h
      | user c => simp [wfAux] at h
      | assistant c calls => simp [wfAux] at h

/-- The tool-result block `runToolCalls` appends answers exactly the
pending calls. -/
theorem wfAux_calls_map (reg : Registry) :
    ∀ (calls : List ToolCallReq) (ys : List Msg),
      wfAux calls (calls.map (execMsg reg) ++ ys) = wfAux [] ys := by
  intro calls
  induction calls with
  | nil => intro ys; simp
  | cons tc rest ih =>
    intro ys
    simp only [List.map_cons, List.cons_append, execMsg]
    simp only [wfAux, beq_self_eq_true, Bool.true_and]
    exact ih ys

/-- The loop invariant behind claim C1: if every tool call the backend
ever requests carries a parsing argument payload, every state the ReAct
loop can return is well formed. -/
theorem reactLoop_wellFormed (reg : Registry) :
    ∀ (fuel : Nat) (oracle : Nat → LMResult) (msgs : List Msg),
      (∀ j, respArgsOk (oracle j) = true) → wfAux [] msgs = true →
      wfAux [] (reactLoop reg oracle fuel msgs).fst = true := by
  intro fuel
  induction fuel with
  | zero => intro oracle msgs _ h; simpa [reactLoop] using h
  | succ fuel ih =>
    intro oracle msgs hor h
    cases hr : oracle 0 with
    | failure e =>
      by_cases hf : fuel = 0
      · subst hf
        simp only [reactLoop, hr, if_pos rfl]
        exact h
      · simp only [reactLoop, hr, if_neg hf]
        exact ih _ _ (fun j => hor (j + 1)) h
    | reply content calls =>
      have hcalls : calls.all argsOk = true := by
        have h0 := hor 0
        rw [hr] at h0
        simpa [respArgsOk] using h0
      by_cases hc : calls.isEmpty
      · have hnil : calls = [] := by
          cases calls with
          | nil => rfl
          | cons a l => simp [List.isEmpty] at hc
        subst hnil
        simp only [reactLoop, hr, List.isEmpty_nil, if_true]
        rw [wfAux_append msgs [] _ h]
        rfl
      · have hwf1 : wfAux []
            ((msgs ++ [Msg.assistant content calls]) ++ calls.map (execMsg reg))
              = true := by
          rw [List.append_assoc, wfAux_append msgs [] _ h, List.singleton_append]
          simp only [wfAux]
          have := wfAux_calls_map reg calls []
          simpa using this
        simp only [reactLoop, hr, if_neg hc]
        rw [runToolCalls_ok reg calls _ hcalls]
        exact ih _ _ (fun j => hor (j + 1)) hwf1

/-- C1 amended: provided every tool call the backend requests carries an
argument payload that `json.loads` parses into a keyword mapping, every
episode of `process_query` ends with a well-formed transcript: every
tool-call id of every appended assistant message is answered by exactly
one tool-result message keyed by that id, appended immediately (hence
before the next model invocation), and the loop never returns with an
unanswered tool call.  (Without that proviso the property fails, see the
counterexample: a payload that fails to parse raises inside the tool
loop, the `except` branch continues the episode, and the requested call
is silently dropped.) -/
theorem process_query_resolves_tool_calls :
    ∀ (reg : Registry) (oracle : Nat → LMResult) (max_iterations : Nat)
      (user_query : String),
      (∀ j, respArgsOk (oracle j) = true) →
      wellFormed (process_query reg oracle max_iterations user_query).fst
        = true := by
  intro reg oracle max_iterations user_query h
  exact reactLoop_wellFormed reg max_iterations oracle _ h rfl

/-- C1 witness: a concrete episode — one well-formed tool call, then a
plain answer — whose transcript the theorem certifies. -/
theorem process_query_resolves_tool_calls_witness :
    wellFormed
      (process_query probe_registry probe_oracle_toolthen 5 "阿司匹林的作用").fst
        = true :=
  process_query_resolves_tool_calls probe_registry probe_oracle_toolthen 5
    "阿司匹林的作用" (fun j => by cases j <;> rfl)

/-- C1 counterexample: an episode in which the first reply requests the
tool call `call_1` with an argument payload that is not valid JSON.  The
`json.loads` exception is caught by the per-iteration `except`, the loop
continues, the next model invocation happens with `call_1` still
unanswered, and the episode returns a final answer while `call_1` has no
tool-result message at all — the claimed invariant is false for this
episode. -/
theorem process_query_unresolved_call_cex :
    (process_query probe_registry probe_oracle_badjson 5 "阿司匹林怎么吃").snd
        = "阿司匹林请在医生指导下使用。"
    ∧ wellFormed
        (process_query probe_registry probe_oracle_badjson 5 "阿司匹林怎么吃").fst
          = false
    ∧ tool_result_count
        (process_query probe_registry probe_oracle_badjson 5 "阿司匹林怎么吃").fst
        "call_1" = 0 := by
  refine ⟨by decide, by decide, by decide⟩

/-- The budget-exhaustion run behind claim C7: a backend that requests a
well-formed, non-empty tool-call batch on every invocation never produces
a final answer, so the loop runs out of fuel and returns the
question-too-complex message. -/
theorem reactLoop_budget (reg : Registry) :
    ∀ (fuel : Nat) (oracle : Nat → LMResult) (msgs : List Msg),
      (∀ j, ∃ content calls, oracle j = .reply content calls ∧ calls ≠ []
        ∧ calls.all argsOk = true) →
      (reactLoop reg oracle fuel msgs).snd = budget_exhausted_message := by
  intro fuel
  induction fuel with
  | zero => intro oracle msgs _; rfl
  | succ fuel ih =>
    intro oracle msgs h
    obtain ⟨content, calls, hr, hne, hok⟩ := h 0
    have hce : ¬ (calls.isEmpty = true) := by
      cases calls with
      | nil => exact absurd rfl hne
      | cons a l => simp [List.isEmpty]
    simp only [reactLoop, hr, if_neg hce]
    rw [runToolCalls_ok reg calls _ hok]
    exact ih _ _ (fun j => h (j + 1))

/-- C7: failure handling of `process_query`.  (1) A backend failure in a
non-final iteration makes the loop continue with the next iteration,
state unchanged.  (2) A backend failure in the final allotted iteration
returns the textual degraded error message instead of raising.  (3) A
backend that keeps requesting tool calls exhausts the iteration budget,
and the episode ends with the user-facing question-too-complex message —
a terminal non-error outcome. -/
theorem process_query_failure_handling :
    (∀ (reg : Registry) (oracle : Nat → LMResult) (fuel : Nat)
       (msgs : List Msg) (e : String), oracle 0 = .failure e →
       reactLoop reg oracle (fuel + 2) msgs
         = reactLoop reg (fun n => oracle (n + 1)) (fuel + 1) msgs)
    ∧ (∀ (reg : Registry) (oracle : Nat → LMResult) (msgs : List Msg)
         (e : String), oracle 0 = .failure e →
       reactLoop reg oracle 1 msgs = (msgs, backend_error_message e))
    ∧ (∀ (reg : Registry) (oracle : Nat → LMResult) (max_iterations : Nat)
         (user_query : String),
       (∀ j, ∃ content calls, oracle j = .reply content calls ∧ calls ≠ []
         ∧ calls.all argsOk = true) →
       (process_query reg oracle max_iterations user_query).snd
         = budget_exhausted_message) := by
  refine ⟨?_, ?_, ?_⟩
  · intro reg oracle fuel msgs e hr
    simp only [reactLoop, hr, if_neg (Nat.succ_ne_zero fuel)]
  · intro reg oracle msgs e hr
    simp only [reactLoop, hr]
    simp
  · intro reg oracle max_iterations user_query h
    exact reactLoop_budget reg max_iterations oracle _ h

/-- C7 witness: the final-iteration failure and the exhausted budget at
concrete inputs. -/
theorem process_query_failure_handling_witness :
    reactLoop probe_registry probe_oracle_failing 1
        [Msg.system agent_system_prompt]
      = ([Msg.system agent_system_prompt],
          backend_error_message "Connection error.")
    ∧ (process_query probe_registry probe_oracle_looping 3 "头痛怎么办").snd
        = budget_exhausted_message :=
  ⟨process_query_failure_handling.2.1 probe_registry probe_oracle_failing
      [Msg.system agent_system_prompt] "Connection error." rfl,
   process_query_failure_handling.2.2 probe_registry probe_oracle_looping 3
      "头痛怎么办"
      (fun _ => ⟨"", [⟨"call_loop", "drug_information",
        .ok [("drug_name", .vstr "布洛芬")]⟩], rfl, by simp, rfl⟩)⟩

end RagAgent
